/-
Verification of the reels video composition pipeline (reels_video.py,
media_source.py, app.py) against its natural-language specification.

Shallow embedding conventions:
- durations are exact rationals (the encoder frame-rounding tolerance of the
  spec collapses to exact equality in the model);
- fallible external operations (file probing, HTTP searches, decoders, the
  ffmpeg subprocess) are modelled by explicit oracles passed as arguments,
  so every embedded function is total and each Python try/except branch is a
  visible case split;
- paths, URLs and raw byte payloads are modelled as strings (only identity
  and emptiness/truthiness of these values matter to the claims).
-/
import Mathlib

namespace ReelsPipeline

/-! ## Constants (reels_video.py, module header) -/

/-- SLIDE_PADDING = 0.5 (reels_video.py line 40). -/
def SLIDE_PADDING : ℚ := 1/2

/-- Frame width W = 1080 (reels_video.py line 37). -/
def frameW : ℤ := 1080

/-- Frame height H = 1920 (reels_video.py line 37). -/
def frameH : ℤ := 1920

/-! ## Narration duration oracle (get_audio_duration, reels_video.py 156-165)

The Python function takes a path string and consults the filesystem and the
audio decoder.  The embedding takes two oracles:
- fs : path -> Bool models os.path.exists;
- probe : path -> Option rational models opening the file with AudioFileClip
  and reading .duration, with none standing for any raised exception.
-/

/-- get_audio_duration (reels_video.py 156-165): returns 3.0 when the path is
falsy (empty string) or the file does not exist; otherwise probes the file
and returns 3.0 on any probing exception. -/
def getAudioDuration (fs : String → Bool) (probe : String → Option ℚ)
    (audioPath : String) : ℚ :=
  if audioPath = "" ∨ fs audioPath = false then 3
  else match probe audioPath with
    | some d => d
    | none => 3

/-! ## Segment rendering of one scene (_render_one_scene, reels_video.py 422-473)

The rendered segment's duration is set with with_duration(slide_dur) where
slide_dur = get_audio_duration(narr_path) + SLIDE_PADDING; the narration
audio is muxed in when the path is non-empty and the file exists; fades are
applied when the duration exceeds twice the fade duration. -/

/-- An encoded per-scene segment file as _render_one_scene produces it:
its duration, whether narration audio was muxed in, and whether the
fade-in/fade-out effects were applied. -/
structure RenderedSegment where
  duration : ℚ
  hasNarration : Bool
  faded : Bool
  deriving DecidableEq

/-- _render_one_scene (reels_video.py 422-473), restricted to the observable
attributes of the written segment.  slide_dur = narr_dur + SLIDE_PADDING and
the clip is clamped to slide_dur via with_duration. -/
def renderOneScene (fs : String → Bool) (probe : String → Option ℚ)
    (narrPath : String) (fadeDur : ℚ := 3/10) : RenderedSegment :=
  let narrDur := getAudioDuration fs probe narrPath
  let slideDur := narrDur + SLIDE_PADDING
  { duration := slideDur
    hasNarration := narrPath ≠ "" && fs narrPath
    faded := decide (slideDur > fadeDur * 2) }

/-! ## Timeline assembly (compose_reel, reels_video.py 476-596)

compose_reel renders the optional intro, each scene, and the optional
bumper to individual segment files, then concatenates them with a
stream-copy ffmpeg subprocess.  A scene render failure is caught (the
try/except at lines 531-535) and merely logged; intro/bumper encoding and
the empty-timeline check are outside any try.  The embedding's oracles:
- includeIntro/includeBumper: the caller flags;
- introExists/bumperExists: os.path.exists on the fixed asset paths;
- sceneRenderOk i: whether _render_one_scene succeeds for scene i;
- concatOk: whether the ffmpeg concat subprocess exits with code 0.
The event list records, in program order, the per-scene render attempts,
the concat invocation, the segment-file unlink loop, and the single call
to _cleanup_temp_files (line 593), which is reached only on the
non-raising path. -/

/-- One segment file of the final timeline: the intro, a slide's scene by
its index, or the bumper. -/
inductive Seg where
  | intro : Seg
  | scene : ℕ → Seg
  | bumper : Seg
  deriving DecidableEq

/-- The oracle environment of one compose_reel run. -/
structure ComposeEnv where
  includeIntro : Bool
  introExists : Bool
  includeBumper : Bool
  bumperExists : Bool
  sceneRenderOk : ℕ → Bool
  concatOk : Bool

/-- The segment_files list as built by compose_reel (reels_video.py
503-557): intro when requested and present, then each scene whose render
succeeded (a failed render appends nothing), then the bumper when
requested and present. -/
def segmentList (env : ComposeEnv) (numScenes : ℕ) : List Seg :=
  (if env.includeIntro && env.introExists then [Seg.intro] else [])
    ++ ((List.range numScenes).filter env.sceneRenderOk).map Seg.scene
    ++ (if env.includeBumper && env.bumperExists then [Seg.bumper] else [])

/-- The one exception compose_reel itself raises: the ValueError at line
560 when segment_files is empty. -/
inductive AssembleError where
  | noSegments : AssembleError
  deriving DecidableEq

/-- What ends up at output_path: the stream-copy concatenation of the
segment files, or (concat-failure fallback, lines 574-579) a copy of the
first segment file. -/
inductive OutputContent where
  | concatenation : List Seg → OutputContent
  | firstSegmentCopy : Seg → OutputContent
  deriving DecidableEq

/-- Events of a compose_reel run, in program order. -/
inductive REvent where
  | renderScene : ℕ → Bool → REvent
  | runConcat : Bool → REvent
  | unlinkSegments : REvent
  | cleanupRegistry : REvent
  deriving DecidableEq

/-- Observable outcome of a compose_reel run. -/
structure ComposeOutcome where
  result : Except AssembleError OutputContent
  timeline : List Seg
  events : List REvent

/-- compose_reel (reels_video.py 476-596): builds segment_files, raises
ValueError when it is empty (before any cleanup), otherwise concatenates
(falling back to copying the first segment when ffmpeg fails), unlinks the
segment files, and calls _cleanup_temp_files exactly once at line 593. -/
def composeReel (env : ComposeEnv) (numScenes : ℕ) : ComposeOutcome :=
  let renders := (List.range numScenes).map
    (fun i => REvent.renderScene i (env.sceneRenderOk i))
  match segmentList env numScenes with
  | [] =>
      { result := .error .noSegments
        timeline := []
        events := renders }
  | s :: rest =>
      { result := .ok (if env.concatOk then .concatenation (s :: rest)
          else .firstSegmentCopy s)
        timeline := s :: rest
        events := renders
          ++ [.runConcat env.concatOk, .unlinkSegments, .cleanupRegistry] }

/-- _cleanup_temp_files (reels_video.py 55-62): attempts to delete every
tracked path, swallowing per-path errors (the deleteOk oracle records
whether each unlink succeeded), then clears the registry.  Returns the
attempt log and the registry's new contents. -/
def cleanupTempFiles (deleteOk : String → Bool) (registry : List String) :
    List (String × Bool) × List String :=
  (registry.map (fun p => (p, deleteOk p)), [])

/-- The slide indices appearing in a timeline, in order, with the fixed
intro/bumper segments stripped. -/
def sceneIndices (tl : List Seg) : List ℕ :=
  tl.filterMap (fun s => match s with
    | .scene i => some i
    | _ => none)

/-- A compose environment with no intro/bumper in which the render of
scene 0 fails and every other scene render succeeds. -/
def envDropScene0 : ComposeEnv :=
  { includeIntro := false, introExists := false
    includeBumper := false, bumperExists := false
    sceneRenderOk := fun i => !(i == 0), concatOk := true }

/-- A compose environment with no intro/bumper in which every scene render
succeeds but the ffmpeg concat subprocess fails. -/
def envConcatFail : ComposeEnv :=
  { includeIntro := false, introExists := false
    includeBumper := false, bumperExists := false
    sceneRenderOk := fun _ => true, concatOk := false }

/-- A compose environment with no intro/bumper in which every scene render
fails, so segment_files ends up empty. -/
def envAllRendersFail : ComposeEnv :=
  { includeIntro := false, introExists := false
    includeBumper := false, bumperExists := false
    sceneRenderOk := fun _ => false, concatOk := true }

/-! ## Clip looping and trimming (_load_video_clip, reels_video.py 272-292)

When clip.duration < duration the clip is concatenated with itself
n_loops = min(int(duration / clip.duration) + 1, 3) times and then
subclipped(0, duration); otherwise it is subclipped(0, min(clip.duration,
duration)).  MoviePy v2's Clip.subclipped(0, e) sets the resulting clip's
duration to e - 0 = e without clamping to the source length, so the
resulting duration attribute is the requested end time in both branches.
Python's int() on the positive float duration ratio truncates toward zero,
i.e. takes the floor. -/

/-- The loop/trim plan of _load_video_clip as a function of the decoded
clip's native duration and the target slide duration: (number of whole
copies of the clip concatenated, duration of the returned clip). -/
def loadVideoClipPlan (nativeDur targetDur : ℚ) : ℕ × ℚ :=
  if nativeDur < targetDur then
    (min (⌊targetDur / nativeDur⌋.toNat + 1) 3, targetDur)
  else
    (1, min nativeDur targetDur)

/-! ## Scene construction (_media_to_scene_clip, reels_video.py 295-373)

The function dispatches on media_info["type"]: gif/video bytes go through
_load_video_clip + _fit_to_area + a per-frame PIL compositing VideoClip
(the whole block inside try/except); image bytes go through PIL decoding
and _fit_cover_pil (also inside try/except); everything else — absent or
empty bytes, an unknown type, or an exception in either block — falls
through to the flat brand-color canvas of Case 3.  The overlay PNG is
loaded once up front inside its own try/except; when it loads, every
produced frame has it alpha-composited on top, in all three cases. -/

/-- Oracles for the fallible steps of _media_to_scene_clip: whether the
overlay PNG decodes, whether the gif/video block (decode, loop, fit,
VideoClip construction) succeeds, and whether the still-image block
succeeds. -/
structure SceneOracle where
  overlayLoadOk : Bool
  videoSceneOk : Bool
  imageSceneOk : Bool

/-- Search-result metadata as media_source.py builds it: the media type
tag, provenance, and the download URLs (empty string = key absent). -/
structure MRes where
  rtype : String
  source : String
  mp4Url : String
  gifUrl : String
  url : String
  deriving DecidableEq

/-- What fills the frame behind the overlay: a fitted media clip of the
given type in the top 55% band over the brand-blue bar, or the flat
brand-color canvas of the fallback path. -/
inductive SceneBackground where
  | mediaClip : String → SceneBackground
  | flatBrandColor : SceneBackground
  deriving DecidableEq

/-- A scene clip as _media_to_scene_clip returns it: its background, its
duration, and whether the overlay is alpha-composited onto its frames. -/
structure Scene where
  background : SceneBackground
  duration : ℚ
  overlayApplied : Bool
  deriving DecidableEq

/-- Python truthiness of an optional bytes value: present and non-empty. -/
def bytesTruthy : Option String → Bool
  | some b => b ≠ ""
  | none => false

/-- media_type = media_info.get("type", "image") if media_info else "none"
(reels_video.py 316); the embedded MRes always carries its type tag. -/
def mediaTypeOf : Option MRes → String
  | some mi => mi.rtype
  | none => "none"

/-- _media_to_scene_clip (reels_video.py 295-373).  Total: every Python
exception path is an oracle case that falls through to the flat
brand-color branch, exactly as the source's try/except structure does. -/
def mediaToSceneClip (oracle : SceneOracle) (mediaBytes : Option String)
    (mediaInfo : Option MRes) (overlayPng : Option String)
    (duration : ℚ) : Scene :=
  if (mediaTypeOf mediaInfo = "gif" ∨ mediaTypeOf mediaInfo = "video")
      ∧ bytesTruthy mediaBytes = true ∧ oracle.videoSceneOk = true then
    { background := .mediaClip (mediaTypeOf mediaInfo)
      duration := duration
      overlayApplied := bytesTruthy overlayPng && oracle.overlayLoadOk }
  else if mediaTypeOf mediaInfo = "image"
      ∧ bytesTruthy mediaBytes = true ∧ oracle.imageSceneOk = true then
    { background := .mediaClip "image"
      duration := duration
      overlayApplied := bytesTruthy overlayPng && oracle.overlayLoadOk }
  else
    { background := .flatBrandColor
      duration := duration
      overlayApplied := bytesTruthy overlayPng && oracle.overlayLoadOk }

/-! ## Letterboxing of landscape intro/bumper assets
(_letterbox_landscape, reels_video.py 194-224, and the orientation
dispatch of compose_reel at lines 508-512 and 543-548)

new_w = W = 1080; new_h = int(ch * (W / cw)) (truncation of a positive
float = floor); the resized clip is placed at y_offset = (H - new_h) // 2
over a full-frame brand-color background.  Python's // is floor division,
embedded as Int.fdiv. -/

/-- The geometry _letterbox_landscape computes for a cw × ch source:
(new width, new height, top offset of the content). -/
def letterboxGeometry (cw ch : ℤ) : ℤ × ℤ × ℤ :=
  (frameW, ⌊(ch : ℚ) * ((frameW : ℚ) / (cw : ℚ))⌋,
    Int.fdiv (frameH - ⌊(ch : ℚ) * ((frameW : ℚ) / (cw : ℚ))⌋) 2)

/-- How compose_reel transforms a fixed intro/bumper asset. -/
inductive IntroProcessing where
  | letterboxed : IntroProcessing
  | cropFitted : IntroProcessing
  | unchanged : IntroProcessing
  deriving DecidableEq

/-- The orientation dispatch of compose_reel (reels_video.py 508-512):
a landscape source (iw > ih) is letterboxed, any other non-1080x1920
source is resize-cropped by _fit_clip_to_reel, and an exact-size source
passes through. -/
def introOrientationFix (iw ih : ℤ) : IntroProcessing :=
  if iw > ih then .letterboxed
  else if iw ≠ frameW ∨ ih ≠ frameH then .cropFitted
  else .unchanged

/-! ## Media sourcing (media_source.py)

Each provider search function (search_tenor, search_giphy,
search_pexels_video, search_unsplash_portrait) returns a result list and
catches every HTTP/parse error, returning [] (also with a missing API
key); the environment below models them as total functions. -/

/-- The four providers of media_source.py. -/
inductive Provider where
  | tenor : Provider
  | giphy : Provider
  | pexels : Provider
  | unsplash : Provider
  deriving DecidableEq

/-- A run's provider responses: for each provider and query string, the
result list its search function returns. -/
def MediaEnv : Type := Provider → String → List MRes

/-- Python str.split() with no argument: split on whitespace runs,
dropping empty pieces (computed on the character list). -/
def pySplit (s : String) : List String :=
  ((s.data.splitOnP Char.isWhitespace).filter (fun l => l ≠ [])).map
    String.mk

/-- Python str.lower() (ASCII case folding suffices for these inputs). -/
def lowerString (s : String) : String :=
  String.mk (s.data.map Char.toLower)

/-- The reaction_words set of _clean_query_for_image (media_source.py
244-248). -/
def reactionWords : List String :=
  ["reaction", "meme", "funny", "lol", "shocked", "surprised",
   "omg", "mind blown", "laugh", "relatable", "mood", "same",
   "gif", "cute", "dramatic", "cringe"]

/-- _clean_query_for_image (media_source.py 242-251): lowercases, drops
reaction keywords, and falls back to a fixed generic query when nothing
remains. -/
def cleanQueryForImage (query : String) : String :=
  let cleaned := (pySplit (lowerString query)).filter
    (fun w => w ∉ reactionWords)
  if cleaned = [] then "health wellness lifestyle"
  else " ".intercalate cleaned

/-- Modelled from the spec: the shortened query of the first two keywords
that §4.2's attempt (2) describes.  media_source.py contains no such
computation; this definition exists only to compare the claimed fallback
chain with the code's. -/
def firstTwoKeywords (q : String) : String :=
  " ".intercalate ((pySplit q).take 2)

/-- Runs an ordered list of (provider, query) attempts: issues each in
turn, stopping at the first non-empty result list and returning its first
element.  Returns the attempts actually issued (in order) and the
result. -/
def runAttempts (env : MediaEnv) : List (Provider × String) →
    List (Provider × String) × Option MRes
  | [] => ([], none)
  | (p, q) :: rest =>
    match env p q with
    | r :: _ => ([(p, q)], some r)
    | [] =>
      let t := runAttempts env rest
      ((p, q) :: t.1, t.2)

/-- The attempt sequence of search_media (media_source.py 211-239): the
body is two sequential non-exclusive if-blocks with early returns — for
preferred_type "gif", Tenor then GIPHY with the full query; for
preferred_type "video", Pexels with the full query; then in every case
the Unsplash fallback with the cleaned image query.  Early return on a
non-empty result list is exactly first-success semantics over this
ordered plan. -/
def attemptPlan (query preferredType : String) :
    List (Provider × String) :=
  (if preferredType = "gif"
    then [(Provider.tenor, query), (Provider.giphy, query)] else [])
  ++ (if preferredType = "video" then [(Provider.pexels, query)] else [])
  ++ [(Provider.unsplash, cleanQueryForImage query)]

/-- search_media, instrumented: the provider calls issued, in order, and
the returned metadata (results[0] of the first non-empty response, None
when every attempt is empty). -/
def searchMediaRun (env : MediaEnv) (query preferredType : String) :
    List (Provider × String) × Option MRes :=
  runAttempts env (attemptPlan query preferredType)

/-- search_media's return value alone. -/
def searchMedia (env : MediaEnv) (query preferredType : String) :
    Option MRes :=
  (searchMediaRun env query preferredType).2

/-- download_media (media_source.py 258-283): the URL is mp4_url, else
gif_url, else url for gifs, and url otherwise; an empty URL or a failed
fetch (the http oracle returning none) yields None. -/
def downloadMedia (http : String → Option String) (m : MRes) :
    Option String :=
  let url := if m.rtype = "gif" then
      (if m.mp4Url ≠ "" then m.mp4Url
        else if m.gifUrl ≠ "" then m.gifUrl
        else m.url)
    else m.url
  if url = "" then none else http url

/-- search_and_download (media_source.py 286-292): (None, None) when the
search found nothing, otherwise (downloaded bytes or None, metadata). -/
def searchAndDownload (env : MediaEnv) (http : String → Option String)
    (query preferredType : String) : Option String × Option MRes :=
  match searchMedia env query preferredType with
  | none => (none, none)
  | some m => (downloadMedia http m, some m)

/-! ## The per-slide media loop of the reels tab (app.py 951-969) -/

/-- The slide fields the app.py media loop reads; empty strings model
absent keys, and mediaType models slide.get("media_type", "gif"). -/
structure AppSlide where
  mediaQuery : String
  imagePrompt : String
  mediaType : Option String
  slideType : String
  deriving DecidableEq

/-- query = slide.get("media_query", "") or slide.get("image_prompt", "")
(app.py 954). -/
def appSlideQuery (s : AppSlide) : String :=
  if s.mediaQuery ≠ "" then s.mediaQuery else s.imagePrompt

/-- One iteration of the media loop (app.py 954-969): closing slides and
slides without a query get (None, None); otherwise search_and_download
runs and its result is kept only when both bytes and metadata are truthy. -/
def appMediaEntry (env : MediaEnv) (http : String → Option String)
    (s : AppSlide) : Option String × Option MRes :=
  if appSlideQuery s = "" ∨ s.slideType = "closing" then (none, none)
  else
    let r := searchAndDownload env http (appSlideQuery s)
      (s.mediaType.getD "gif")
    if bytesTruthy r.1 && r.2.isSome then r else (none, none)

/-- The whole media_data list the app builds: one entry per slide, each
computed independently by appMediaEntry. -/
def appMediaLoop (env : MediaEnv) (http : String → Option String)
    (slides : List AppSlide) : List (Option String × Option MRes) :=
  slides.map (appMediaEntry env http)

/-- An environment in which every provider returns no results. -/
def emptyMediaEnv : MediaEnv := fun _ _ => []

/-- A Tenor result with download URL u1.mp4. -/
def dupMRes1 : MRes :=
  { rtype := "gif", source := "tenor", mp4Url := "u1.mp4", gifUrl := ""
    url := "" }

/-- A second, distinct Tenor result with download URL u2.mp4. -/
def dupMRes2 : MRes :=
  { rtype := "gif", source := "tenor", mp4Url := "u2.mp4", gifUrl := ""
    url := "" }

/-- An environment in which Tenor returns the same two candidates for
every query and the other providers return nothing. -/
def dupEnv : MediaEnv := fun p _ =>
  if p = Provider.tenor then [dupMRes1, dupMRes2] else []

/-- An HTTP oracle for which every fetch succeeds. -/
def dupHttp : String → Option String := fun u => some ("bytes:" ++ u)

/-- A content slide with a media query. -/
def dupSlide : AppSlide :=
  { mediaQuery := "sleep tips", imagePrompt := "", mediaType := none
    slideType := "content" }

/-! ## The scene-building loop of create_reel (reels_video.py 639-660) -/

/-- The narration path compose_reel passes to _render_one_scene for scene
i (reels_video.py 528): narration_paths[i] if i < len(narration_paths)
else "". -/
def composeNarrPath (narrationPaths : List String) (i : ℕ) : String :=
  narrationPaths.getD i ""

/-- The Phase-2 loop of create_reel (reels_video.py 639-660): one scene
per media_data entry, with slide duration driven by the guarded narration
path (default 3.0 s beyond the list's end) and the overlay taken only
when the index is within overlay_images.  The per-index oracle carries
the fallible decode steps of each scene. -/
def createReelScenes (fs : String → Bool) (probe : String → Option ℚ)
    (oracles : ℕ → SceneOracle) (narrationPaths : List String)
    (overlays : List String)
    (mediaData : List (Option String × Option MRes)) : List Scene :=
  mediaData.enum.map fun im =>
    mediaToSceneClip (oracles im.1) im.2.1 im.2.2 overlays[im.1]?
      (getAudioDuration fs probe (narrationPaths.getD im.1 "")
        + SLIDE_PADDING)

end ReelsPipeline

namespace ReelsPipeline

/-- The timeline of a run is exactly the segment_files list. -/
theorem composeReel_timeline (env : ComposeEnv) (n : ℕ) :
    (composeReel env n).timeline = segmentList env n := by
  unfold composeReel
  cases segmentList env n <;> simp

/-- The event list of a run: the per-scene render attempts, followed (on
the non-raising path only) by the concat invocation, the segment unlink
loop and the single registry cleanup. -/
theorem composeReel_events (env : ComposeEnv) (n : ℕ) :
    (composeReel env n).events
      = (List.range n).map
          (fun i => REvent.renderScene i (env.sceneRenderOk i))
        ++ (if segmentList env n = [] then []
            else [REvent.runConcat env.concatOk, REvent.unlinkSegments,
              REvent.cleanupRegistry]) := by
  unfold composeReel
  cases segmentList env n <;> simp

/-- Stripping intro/bumper from a run's timeline leaves exactly the
successfully rendered scene indices, in order. -/
theorem sceneIndices_composeReel (env : ComposeEnv) (n : ℕ) :
    sceneIndices (composeReel env n).timeline
      = (List.range n).filter env.sceneRenderOk := by
  rw [composeReel_timeline]
  unfold segmentList sceneIndices
  rw [List.filterMap_append, List.filterMap_append]
  rw [List.filterMap_map]
  have h1 : ∀ b : Bool, (if b then [Seg.intro] else []).filterMap
      (fun s => match s with | .scene i => some i | _ => none) = [] := by
    intro b; cases b <;> rfl
  have h2 : ∀ b : Bool, (if b then [Seg.bumper] else []).filterMap
      (fun s => match s with | .scene i => some i | _ => none) = [] := by
    intro b; cases b <;> rfl
  rw [h1, h2, List.append_nil, List.nil_append]
  have h3 : ((fun s => match s with
      | Seg.scene i => some i
      | _ => none) ∘ Seg.scene) = (some : ℕ → Option ℕ) := rfl
  rw [h3, List.filterMap_some]

/-- Every scene _media_to_scene_clip builds carries exactly the requested
duration, on every path. -/
theorem mediaToSceneClip_duration (oracle : SceneOracle)
    (mb : Option String) (mi : Option MRes) (ov : Option String)
    (d : ℚ) : (mediaToSceneClip oracle mb mi ov d).duration = d := by
  unfold mediaToSceneClip
  split
  · rfl
  · split <;> rfl

/-- On every path, the overlay is composited exactly when overlay bytes
were supplied and decoded. -/
theorem mediaToSceneClip_overlayApplied (oracle : SceneOracle)
    (mb : Option String) (mi : Option MRes) (ov : Option String)
    (d : ℚ) : (mediaToSceneClip oracle mb mi ov d).overlayApplied
      = (bytesTruthy ov && oracle.overlayLoadOk) := by
  unfold mediaToSceneClip
  split
  · rfl
  · split <;> rfl

/-- C1: every rendered slide segment has duration equal to the probed
narration duration plus the 0.5 s padding constant, and the probed duration
is the fixed default 3.0 s whenever the narration path is empty, the file is
missing, or probing raises. -/
theorem rendered_segment_duration_is_narration_plus_padding
    (fs : String → Bool) (probe : String → Option ℚ) (narrPath : String) :
    (renderOneScene fs probe narrPath).duration
        = getAudioDuration fs probe narrPath + SLIDE_PADDING
    ∧ (narrPath = "" ∨ fs narrPath = false ∨ probe narrPath = none →
        getAudioDuration fs probe narrPath = 3)
    ∧ (∀ d : ℚ, narrPath ≠ "" → fs narrPath = true → probe narrPath = some d →
        (renderOneScene fs probe narrPath).duration = d + 1/2) := by
  refine ⟨rfl, ?_, ?_⟩
  · rintro (h | h | h)
    · simp [getAudioDuration, h]
    · simp [getAudioDuration, h]
    · unfold getAudioDuration
      rcases eq_or_ne narrPath "" with he | he
      · simp [he]
      · by_cases hf : fs narrPath = false <;> simp [he, hf, h]
  · intro d hne hfs hp
    simp [renderOneScene, getAudioDuration, hne, hfs, hp, SLIDE_PADDING]

/-- Witness for C1 at a concrete oracle: a one-file filesystem whose probe
succeeds with duration 2, and a missing file defaulting to 3. -/
theorem rendered_segment_duration_witness :
    (renderOneScene (fun p => p = "a.mp3") (fun _ => some 2) "a.mp3").duration
        = 2 + 1/2
    ∧ getAudioDuration (fun p => p = "a.mp3") (fun _ => some 2) "b.mp3" = 3 := by
  constructor
  · exact (rendered_segment_duration_is_narration_plus_padding
      (fun p => p = "a.mp3") (fun _ => some 2) "a.mp3").2.2 2
      (by decide) (by decide) rfl
  · exact (rendered_segment_duration_is_narration_plus_padding
      (fun p => p = "a.mp3") (fun _ => some 2) "b.mp3").2.1
      (Or.inr (Or.inl (by decide)))

/-- C2 counterexample: with two scenes and no intro/bumper, when the render
of scene 0 fails the final timeline is [scene 1] — slide 0's segment is
dropped (not degraded to a flat-color segment) and slide 1 shifts to
position 0, contradicting the claim that the timeline keeps exactly one
segment per slide in input order. -/
theorem render_failure_drops_slide_counterexample :
    (composeReel envDropScene0 2).timeline = [Seg.scene 1]
    ∧ sceneIndices (composeReel envDropScene0 2).timeline ≠ [0, 1]
    ∧ Seg.scene 0 ∉ (composeReel envDropScene0 2).timeline := by
  refine ⟨?_, ?_, ?_⟩ <;> decide

/-- C2 amended: between the optional intro and bumper, the timeline
contains exactly the segments of those slides whose render succeeded, in
strictly increasing input order (so a render failure drops that slide and
shifts every later slide, while a run in which every render succeeds keeps
exactly one segment per slide in input order). -/
theorem timeline_keeps_successful_scenes_in_order
    (env : ComposeEnv) (n : ℕ) :
    List.Sorted (· < ·) (sceneIndices (composeReel env n).timeline)
    ∧ (∀ i : ℕ, i ∈ sceneIndices (composeReel env n).timeline
        ↔ i < n ∧ env.sceneRenderOk i = true)
    ∧ ((∀ i < n, env.sceneRenderOk i = true) →
        sceneIndices (composeReel env n).timeline = List.range n) := by
  rw [sceneIndices_composeReel]
  refine ⟨?_, ?_, ?_⟩
  · exact List.Pairwise.filter _ (List.pairwise_lt_range n)
  · intro i
    rw [List.mem_filter, List.mem_range]
  · intro h
    rw [List.filter_eq_self.mpr]
    intro a ha
    exact h a (List.mem_range.mp ha)

/-- Witness for C2 amended: with three scenes all rendering successfully,
the stripped timeline is exactly [0, 1, 2]. -/
theorem timeline_keeps_successful_scenes_witness :
    sceneIndices (composeReel envConcatFail 3).timeline = List.range 3 :=
  (timeline_keeps_successful_scenes_in_order envConcatFail 3).2.2
    (fun _ _ => rfl)

/-- C7: the assembly step of compose_reel raises exactly when the segment
list is empty; when the ffmpeg concat subprocess fails on a non-empty
segment list it does not raise but copies the first rendered segment file
to the output path, and when concat succeeds the output is the stream-copy
concatenation of all segments. -/
theorem assembly_raises_only_on_empty_segments
    (env : ComposeEnv) (n : ℕ) :
    ((composeReel env n).result = Except.error AssembleError.noSegments
        ↔ segmentList env n = [])
    ∧ (∀ s rest, segmentList env n = s :: rest → env.concatOk = false →
        (composeReel env n).result
          = Except.ok (OutputContent.firstSegmentCopy s))
    ∧ (∀ s rest, segmentList env n = s :: rest → env.concatOk = true →
        (composeReel env n).result
          = Except.ok (OutputContent.concatenation (s :: rest))) := by
  refine ⟨?_, ?_, ?_⟩
  · unfold composeReel
    cases segmentList env n <;> simp
  · intro s rest hseg hconcat
    unfold composeReel
    rw [hseg]
    simp [hconcat]
  · intro s rest hseg hconcat
    unfold composeReel
    rw [hseg]
    simp [hconcat]

/-- Witness for C7: one scene, render succeeds, concat fails — the result
is the copy of the first (and only) scene segment, not an error. -/
theorem assembly_concat_fallback_witness :
    (composeReel envConcatFail 1).result
      = Except.ok (OutputContent.firstSegmentCopy (Seg.scene 0)) :=
  (assembly_raises_only_on_empty_segments envConcatFail 1).2.1
    (Seg.scene 0) [] (by decide) rfl

/-- C8 counterexample: a run whose single scene render fails (no
intro/bumper) raises the empty-timeline error and never invokes the
registry cleanup — so cleanup is not invoked "exactly once after assembly
has failed" on this run; any tracked temp files stay registered. -/
theorem fatal_path_skips_cleanup_counterexample :
    (composeReel envAllRendersFail 1).result
        = Except.error AssembleError.noSegments
    ∧ (composeReel envAllRendersFail 1).events.count REvent.cleanupRegistry
        = 0 := by
  exact ⟨rfl, by decide⟩

/-- C8 amended: on every run whose segment list is non-empty, the registry
cleanup is invoked exactly once, as the very last event (after the concat
invocation, hence never mid-run); on the fatal empty-segment-list path
compose_reel raises before reaching cleanup, which is therefore never
invoked there; and the cleanup itself attempts to delete every tracked
path (regardless of individual deletion failures) and empties the
registry. -/
theorem cleanup_invoked_once_at_end
    (env : ComposeEnv) (n : ℕ) (deleteOk : String → Bool)
    (registry : List String) :
    (segmentList env n ≠ [] →
      (composeReel env n).events.count REvent.cleanupRegistry = 1
      ∧ (composeReel env n).events.getLast? = some REvent.cleanupRegistry)
    ∧ (segmentList env n = [] →
      (composeReel env n).events.count REvent.cleanupRegistry = 0
      ∧ (composeReel env n).result
          = Except.error AssembleError.noSegments)
    ∧ (cleanupTempFiles deleteOk registry).2 = []
    ∧ (cleanupTempFiles deleteOk registry).1.map Prod.fst = registry := by
  have hrcount : ((List.range n).map
      (fun i => REvent.renderScene i (env.sceneRenderOk i))).count
        REvent.cleanupRegistry = 0 := by
    rw [List.count_eq_zero]
    intro hmem
    rcases List.mem_map.mp hmem with ⟨i, _, hi⟩
    exact REvent.noConfusion hi
  refine ⟨?_, ?_, rfl, ?_⟩
  · intro hne
    rw [composeReel_events, if_neg hne]
    constructor
    · rw [List.count_append, hrcount]
      simp [List.count_cons]
    · rw [show [REvent.runConcat env.concatOk, REvent.unlinkSegments,
          REvent.cleanupRegistry]
          = [REvent.runConcat env.concatOk, REvent.unlinkSegments]
            ++ [REvent.cleanupRegistry] from rfl,
        ← List.append_assoc]
      exact List.getLast?_concat _
  · intro hnil
    constructor
    · rw [composeReel_events, if_pos hnil, List.append_nil]
      exact hrcount
    · unfold composeReel
      rw [hnil]
  · induction registry with
    | nil => rfl
    | cons p ps ih =>
        simp only [cleanupTempFiles, List.map_cons] at ih ⊢
        rw [ih]

/-- Witness for C8 amended: a successful two-scene run invokes cleanup
exactly once and as its final event; cleanup on a two-path registry with
one failing deletion still attempts both paths and empties the registry. -/
theorem cleanup_invoked_once_witness :
    ((composeReel envConcatFail 2).events.count REvent.cleanupRegistry = 1
      ∧ (composeReel envConcatFail 2).events.getLast?
          = some REvent.cleanupRegistry)
    ∧ (cleanupTempFiles (fun p => p = "a.tmp") ["a.tmp", "b.tmp"]).2 = []
    ∧ (cleanupTempFiles (fun p => p = "a.tmp")
        ["a.tmp", "b.tmp"]).1.map Prod.fst = ["a.tmp", "b.tmp"] :=
  ⟨(cleanup_invoked_once_at_end envConcatFail 2 (fun _ => true) []).1
      (by decide),
    (cleanup_invoked_once_at_end envConcatFail 2 (fun p => p = "a.tmp")
      ["a.tmp", "b.tmp"]).2.2.1,
    (cleanup_invoked_once_at_end envConcatFail 2 (fun p => p = "a.tmp")
      ["a.tmp", "b.tmp"]).2.2.2⟩

/-- C3: scene construction always yields a scene of the requested duration
(the embedded function is total: every Python exception path is an oracle
branch), and whenever the media bytes are absent or empty, the media type
is unknown, or the decode/compose block for the asset fails, the scene is
the flat brand-color one; in every case the overlay is alpha-composited
exactly when an overlay was supplied and decoded. -/
theorem scene_construction_total_with_flat_fallback
    (oracle : SceneOracle) (mb : Option String) (mi : Option MRes)
    (ov : Option String) (d : ℚ) :
    (mediaToSceneClip oracle mb mi ov d).duration = d
    ∧ (mediaToSceneClip oracle mb mi ov d).overlayApplied
        = (bytesTruthy ov && oracle.overlayLoadOk)
    ∧ (bytesTruthy mb = false
        ∨ mediaTypeOf mi ∉ (["gif", "video", "image"] : List String)
        ∨ ((mediaTypeOf mi = "gif" ∨ mediaTypeOf mi = "video")
            ∧ oracle.videoSceneOk = false)
        ∨ (mediaTypeOf mi = "image" ∧ oracle.imageSceneOk = false) →
        (mediaToSceneClip oracle mb mi ov d).background
          = SceneBackground.flatBrandColor) := by
  refine ⟨mediaToSceneClip_duration oracle mb mi ov d,
    mediaToSceneClip_overlayApplied oracle mb mi ov d, ?_⟩
  intro h
  have h1 : ¬((mediaTypeOf mi = "gif" ∨ mediaTypeOf mi = "video")
      ∧ bytesTruthy mb = true ∧ oracle.videoSceneOk = true) := by
    rcases h with h | h | h | h
    · rintro ⟨-, hb, -⟩
      rw [h] at hb
      exact Bool.false_ne_true hb
    · rintro ⟨ht, -, -⟩
      rcases ht with ht | ht <;> simp [ht] at h
    · rintro ⟨-, -, hv⟩
      rw [h.2] at hv
      exact Bool.false_ne_true hv
    · rintro ⟨ht, -, -⟩
      rcases ht with ht | ht <;> rw [h.1] at ht <;>
        exact absurd ht (by decide)
  have h2 : ¬(mediaTypeOf mi = "image"
      ∧ bytesTruthy mb = true ∧ oracle.imageSceneOk = true) := by
    rcases h with h | h | h | h
    · rintro ⟨-, hb, -⟩
      rw [h] at hb
      exact Bool.false_ne_true hb
    · rintro ⟨ht, -, -⟩
      simp [ht] at h
    · rintro ⟨ht, -, -⟩
      rcases h.1 with hg | hg <;> rw [hg] at ht <;>
        exact absurd ht (by decide)
    · rintro ⟨-, -, hi⟩
      rw [h.2] at hi
      exact Bool.false_ne_true hi
  unfold mediaToSceneClip
  rw [if_neg h1, if_neg h2]

/-- Witness for C3: absent media with a present, decodable overlay yields
the flat brand-color scene of the requested duration with the overlay
applied. -/
theorem scene_construction_fallback_witness :
    (mediaToSceneClip ⟨true, true, true⟩ none none (some "ovl") 5).duration
        = 5
    ∧ (mediaToSceneClip ⟨true, true, true⟩ none none (some "ovl")
        5).overlayApplied = true
    ∧ (mediaToSceneClip ⟨true, true, true⟩ none none (some "ovl")
        5).background = SceneBackground.flatBrandColor := by
  have h := scene_construction_total_with_flat_fallback
    ⟨true, true, true⟩ none none (some "ovl") 5
  exact ⟨h.1, by rw [h.2.1]; decide, h.2.2 (Or.inl rfl)⟩

/-- C4: for a clip shorter than the target duration, _load_video_clip
concatenates at least one and at most 3 whole copies and returns a clip
whose duration is exactly the target; a clip at least as long as the
target is trimmed to exactly the target.  Moreover, whenever the repeat
cap is not hit, the concatenated copies fully cover the target duration. -/
theorem clip_looped_at_most_three_then_trimmed
    (d t : ℚ) (hd : 0 < d) (ht : 0 < t) :
    (loadVideoClipPlan d t).1 ≤ 3
    ∧ 1 ≤ (loadVideoClipPlan d t).1
    ∧ (loadVideoClipPlan d t).2 = t
    ∧ (d < t → ⌊t / d⌋.toNat + 1 ≤ 3 →
        t ≤ d * (loadVideoClipPlan d t).1) := by
  unfold loadVideoClipPlan
  split
  · rename_i hlt
    refine ⟨min_le_right _ _, le_min (Nat.le_add_left 1 _) (by decide),
      rfl, ?_⟩
    intro _ hcap
    have h0 : (0 : ℚ) < t / d := div_pos ht hd
    have hfnn : (0 : ℤ) ≤ ⌊t / d⌋ := Int.floor_nonneg.mpr h0.le
    have hlt1 : t / d < (⌊t / d⌋ : ℚ) + 1 := Int.lt_floor_add_one _
    have ht' : t < ((⌊t / d⌋ : ℚ) + 1) * d := by
      rwa [div_lt_iff₀ hd] at hlt1
    have hmin : min (⌊t / d⌋.toNat + 1) 3 = ⌊t / d⌋.toNat + 1 :=
      min_eq_left hcap
    have htn : ((⌊t / d⌋.toNat : ℕ) : ℚ) = ((⌊t / d⌋ : ℤ) : ℚ) := by
      exact_mod_cast congrArg (fun z : ℤ => (z : ℚ))
        (Int.toNat_of_nonneg hfnn)
    rw [hmin]
    push_cast
    rw [htn, mul_comm]
    exact ht'.le
  · rename_i hge
    have hle : t ≤ d := le_of_not_lt hge
    exact ⟨(by decide : (1 : ℕ) ≤ 3), le_refl 1, min_eq_right hle,
      fun hlt _ => absurd hlt hge⟩

/-- Witness for C4 at a short clip (2 s native, 5 s target: three copies,
trimmed to 5 s) and a long clip (7 s native, 5 s target: trimmed to 5 s). -/
theorem clip_looped_witness :
    ((loadVideoClipPlan 2 5).1 ≤ 3 ∧ (loadVideoClipPlan 2 5).2 = 5)
    ∧ (loadVideoClipPlan 7 5).2 = 5 := by
  have h1 := clip_looped_at_most_three_then_trimmed 2 5 (by norm_num)
    (by norm_num)
  have h2 := clip_looped_at_most_three_then_trimmed 7 5 (by norm_num)
    (by norm_num)
  exact ⟨⟨h1.1, h1.2.2.1⟩, h2.2.2.1⟩

/-- The letterbox geometry evaluated at a 1920x1080 source. -/
theorem letterboxGeometry_1920_1080 :
    letterboxGeometry 1920 1080 = (1080, 607, 656) := by
  unfold letterboxGeometry
  have hfl : ⌊((1080 : ℤ) : ℚ) * ((frameW : ℚ) / ((1920 : ℤ) : ℚ))⌋
      = 607 := by
    norm_num [frameW]
  rw [hfl]
  norm_num [frameW, frameH]
  decide

/-- C9 counterexample: for a 1920x1080 source, _letterbox_landscape scales
the content to 1080 x int(1080 * (1080/1920)) = 1080x607, not 1080x608 as
the claim states, and the remaining padding is 1313 px, not ~1312, split
656 above and 657 below (not exactly evenly). -/
theorem letterbox_height_counterexample :
    (letterboxGeometry 1920 1080).2.1 = 607
    ∧ (607 : ℤ) ≠ 608
    ∧ frameH - (letterboxGeometry 1920 1080).2.1 = 1313
    ∧ (letterboxGeometry 1920 1080).2.2 = 656
    ∧ frameH - 607 - 656 = (657 : ℤ) := by
  rw [letterboxGeometry_1920_1080]
  refine ⟨rfl, by decide, by decide, rfl, by decide⟩

/-- C9 amended: a 1920x1080 intro asset is dispatched to the letterbox
path (landscape), where the content is scaled uniformly to width 1080 and
height 607 = floor(1080 * 1080/1920), placed 656 px from the top so that
the 1313 px of brand-color padding split 656 above / 657 below (even to
within one pixel); the content keeps the source's aspect ratio up to the
one-pixel floor rounding (607 ≤ 1080 * 1080/1920 < 608) and lies entirely
inside the 1080x1920 frame (never cropped). -/
theorem letterbox_1920x1080_geometry :
    introOrientationFix 1920 1080 = IntroProcessing.letterboxed
    ∧ letterboxGeometry 1920 1080 = (1080, 607, 656)
    ∧ (656 : ℤ) + 607 + 657 = frameH
    ∧ (657 : ℤ) - 656 ≤ 1
    ∧ (607 : ℚ) ≤ 1080 * (1080 / 1920) ∧ (1080 : ℚ) * (1080 / 1920) < 608
    ∧ (0 : ℤ) ≤ 656 ∧ 656 + 607 ≤ frameH := by
  refine ⟨by decide, letterboxGeometry_1920_1080, by decide, by decide,
    by norm_num, by norm_num, by decide, by decide⟩

/-- Unfolding runAttempts on a head attempt that returns nothing. -/
theorem runAttempts_cons_empty (env : MediaEnv) (p : Provider)
    (q : String) (tl : List (Provider × String)) (h : env p q = []) :
    runAttempts env ((p, q) :: tl)
      = ((p, q) :: (runAttempts env tl).1, (runAttempts env tl).2) := by
  simp only [runAttempts]
  rw [h]

/-- Unfolding runAttempts on a head attempt that finds results. -/
theorem runAttempts_cons_found (env : MediaEnv) (p : Provider)
    (q : String) (tl : List (Provider × String)) (r : MRes)
    (rs : List MRes) (h : env p q = r :: rs) :
    runAttempts env ((p, q) :: tl) = ([(p, q)], some r) := by
  simp only [runAttempts]
  rw [h]

/-- Every attempt a run issues comes from its plan. -/
theorem runAttempts_trace_subset (env : MediaEnv) :
    ∀ plan : List (Provider × String),
      ∀ pq ∈ (runAttempts env plan).1, pq ∈ plan := by
  intro plan
  induction plan with
  | nil =>
      intro pq h
      simp [runAttempts] at h
  | cons hd tl ih =>
      intro pq h
      rcases hd with ⟨p, q⟩
      cases henv : env p q with
      | nil =>
          rw [runAttempts_cons_empty env p q tl henv] at h
          rcases List.mem_cons.mp h with h | h
          · exact h ▸ List.mem_cons_self _ _
          · exact List.mem_cons_of_mem _ (ih pq h)
      | cons r rs =>
          rw [runAttempts_cons_found env p q tl r rs henv] at h
          rcases List.mem_cons.mp h with h | h
          · exact h ▸ List.mem_cons_self _ _
          · simp at h

/-- A run returns none exactly when it issued every planned attempt and
each returned the empty result list. -/
theorem runAttempts_none_iff (env : MediaEnv) :
    ∀ plan : List (Provider × String),
      (runAttempts env plan).2 = none ↔
        (runAttempts env plan).1 = plan
          ∧ ∀ pq ∈ plan, env pq.1 pq.2 = [] := by
  intro plan
  induction plan with
  | nil => simp [runAttempts]
  | cons hd tl ih =>
      rcases hd with ⟨p, q⟩
      cases henv : env p q with
      | nil =>
          rw [runAttempts_cons_empty env p q tl henv]
          constructor
          · intro h
            refine ⟨?_, ?_⟩
            · rw [(ih.mp h).1]
            · intro pq hpq
              rcases List.mem_cons.mp hpq with hpq | hpq
              · rw [hpq]; exact henv
              · exact (ih.mp h).2 pq hpq
          · rintro ⟨htr, hall⟩
            have htl : (runAttempts env tl).1 = tl :=
              (List.cons.injEq _ _ _ _ ▸ htr : _ ∧ _).2
            exact ih.mpr ⟨htl,
              fun pq hpq => hall pq (List.mem_cons_of_mem _ hpq)⟩
      | cons r rs =>
          rw [runAttempts_cons_found env p q tl r rs henv]
          constructor
          · intro h
            exact Option.noConfusion h
          · rintro ⟨-, hall⟩
            have := hall (p, q) (List.mem_cons_self _ _)
            rw [henv] at this
            exact List.noConfusion this

/-- A run that returns some r got r as the head of the response to one of
its planned attempts. -/
theorem runAttempts_some_mem (env : MediaEnv) :
    ∀ (plan : List (Provider × String)) (r : MRes),
      (runAttempts env plan).2 = some r →
        ∃ pq ∈ plan, (env pq.1 pq.2).head? = some r := by
  intro plan
  induction plan with
  | nil =>
      intro r h
      simp [runAttempts] at h
  | cons hd tl ih =>
      intro r h
      rcases hd with ⟨p, q⟩
      cases henv : env p q with
      | nil =>
          rw [runAttempts_cons_empty env p q tl henv] at h
          rcases ih r h with ⟨pq, hmem, hhead⟩
          exact ⟨pq, List.mem_cons_of_mem _ hmem, hhead⟩
      | cons r' rs =>
          rw [runAttempts_cons_found env p q tl r' rs henv] at h
          have h' : some r' = some r := h
          refine ⟨(p, q), List.mem_cons_self _ _, ?_⟩
          rw [henv]
          exact h'

/-- Every query in search_media's attempt plan is the full query or the
cleaned image query — never anything else. -/
theorem attemptPlan_queries (q pref : String) :
    ∀ pq ∈ attemptPlan q pref, pq.2 = q ∨ pq.2 = cleanQueryForImage q := by
  intro pq h
  unfold attemptPlan at h
  rcases List.mem_append.mp h with h | h
  · rcases List.mem_append.mp h with h | h
    · split_ifs at h with hg
      · rcases List.mem_cons.mp h with h | h
        · left; rw [h]
        · rcases List.mem_cons.mp h with h | h
          · left; rw [h]
          · simp at h
      · simp at h
    · split_ifs at h with hv
      · rcases List.mem_cons.mp h with h | h
        · left; rw [h]
        · simp at h
      · simp at h
  · rcases List.mem_cons.mp h with h | h
    · right; rw [h]
    · simp at h

/-- The terminal attempt of every plan is Unsplash with the cleaned
image query. -/
theorem attemptPlan_getLast (q pref : String) :
    (attemptPlan q pref).getLast?
      = some (Provider.unsplash, cleanQueryForImage q) :=
  List.getLast?_concat _

/-- C5 amended: acquisition attempts, in order, the preferred kind's
providers with the full query (Tenor then GIPHY for gif, Pexels for
video) and then, whenever no earlier attempt produced results, Unsplash
with the query cleaned of reaction keywords — every issued query is the
full query or the cleaned query (no shortened first-two-keywords retry
and no rotating generic fallback queries on the same provider); when all
attempts return empty, the terminal Unsplash attempt was issued and
empty and search_and_download returns the no-media result (None, None);
a returned asset is always the first element of some issued attempt's
response. -/
theorem media_fallback_chain_as_implemented (env : MediaEnv)
    (http : String → Option String) (q pref : String) :
    (∀ pq ∈ (searchMediaRun env q pref).1,
        pq.2 = q ∨ pq.2 = cleanQueryForImage q)
    ∧ ((searchMediaRun env q pref).2 = none →
        env Provider.unsplash (cleanQueryForImage q) = []
        ∧ (searchMediaRun env q pref).1.getLast?
            = some (Provider.unsplash, cleanQueryForImage q))
    ∧ (∀ r, (searchMediaRun env q pref).2 = some r →
        ∃ pq ∈ attemptPlan q pref, (env pq.1 pq.2).head? = some r)
    ∧ (searchMedia env q pref = none →
        searchAndDownload env http q pref = (none, none)) := by
  refine ⟨?_, ?_, ?_, ?_⟩
  · intro pq h
    exact attemptPlan_queries q pref pq
      (runAttempts_trace_subset env (attemptPlan q pref) pq h)
  · intro h
    rcases (runAttempts_none_iff env (attemptPlan q pref)).mp h
      with ⟨htr, hall⟩
    have hu : (Provider.unsplash, cleanQueryForImage q)
        ∈ attemptPlan q pref := by
      unfold attemptPlan
      exact List.mem_append.mpr (Or.inr (List.mem_cons_self _ _))
    refine ⟨hall _ hu, ?_⟩
    unfold searchMediaRun
    rw [htr]
    exact attemptPlan_getLast q pref
  · intro r h
    exact runAttempts_some_mem env (attemptPlan q pref) r h
  · intro h
    unfold searchAndDownload
    rw [h]

/-- Witness for C5 amended at the all-empty environment: the run ends at
the Unsplash attempt with the cleaned query and search_and_download
returns (None, None). -/
theorem media_fallback_chain_witness :
    emptyMediaEnv Provider.unsplash (cleanQueryForImage "hydration") = []
    ∧ (searchMediaRun emptyMediaEnv "hydration" "gif").1.getLast?
        = some (Provider.unsplash, cleanQueryForImage "hydration")
    ∧ searchAndDownload emptyMediaEnv (fun _ => none) "hydration" "gif"
        = (none, none) := by
  have h := media_fallback_chain_as_implemented emptyMediaEnv
    (fun _ => none) "hydration" "gif"
  exact ⟨(h.2.1 rfl).1, (h.2.1 rfl).2, h.2.2.2 rfl⟩

/-- C5 counterexample: for the full query "heart health tips" with
preferred kind gif in an environment where every provider returns
nothing, the code issues Tenor, GIPHY and Unsplash calls all with the
(cleaned-equal) full query; it never issues the shortened first-two-
keywords query "heart health" to the preferred provider and never issues
a generic fallback query such as "health wellness" — contradicting the
claimed attempt sequence. -/
theorem shortened_query_retry_counterexample :
    firstTwoKeywords "heart health tips" = "heart health"
    ∧ (searchMediaRun emptyMediaEnv "heart health tips" "gif").1
        = [(Provider.tenor, "heart health tips"),
           (Provider.giphy, "heart health tips"),
           (Provider.unsplash, "heart health tips")]
    ∧ (Provider.tenor, "heart health")
        ∉ (searchMediaRun emptyMediaEnv "heart health tips" "gif").1
    ∧ (Provider.tenor, "health wellness")
        ∉ (searchMediaRun emptyMediaEnv "heart health tips" "gif").1
    ∧ (searchMediaRun emptyMediaEnv "heart health tips" "gif").2
        = none := by
  refine ⟨?_, ?_, ?_, ?_, rfl⟩ <;> decide

/-- C6 counterexample: two identical content slides in an environment
where Tenor offers two distinct candidates (u1.mp4 then u2.mp4) both
resolve to the same first candidate and download the same URL u1.mp4,
even though the distinct candidate u2.mp4 was available — no
next-distinct-candidate selection happens. -/
theorem duplicate_url_counterexample :
    appMediaLoop dupEnv dupHttp [dupSlide, dupSlide]
        = [(some "bytes:u1.mp4", some dupMRes1),
           (some "bytes:u1.mp4", some dupMRes1)]
    ∧ dupMRes2 ∈ dupEnv Provider.tenor (appSlideQuery dupSlide)
    ∧ dupMRes2.mp4Url ≠ dupMRes1.mp4Url := by
  refine ⟨?_, ?_, ?_⟩ <;> decide

/-- C6 amended: the reels media loop resolves each slide independently —
entry i is a function of slide i alone (the first candidate of that
slide's own search), with no cross-slide URL deduplication, so slides
with equal fields resolve to equal assets and may repeat URLs. -/
theorem media_resolution_is_per_slide (env : MediaEnv)
    (http : String → Option String) (slides : List AppSlide)
    (i j : ℕ) :
    (appMediaLoop env http slides)[i]?
        = (slides[i]?).map (appMediaEntry env http)
    ∧ (slides[i]? = slides[j]? →
        (appMediaLoop env http slides)[i]?
          = (appMediaLoop env http slides)[j]?) := by
  constructor
  · unfold appMediaLoop
    rw [List.getElem?_map]
  · intro h
    unfold appMediaLoop
    rw [List.getElem?_map, List.getElem?_map, h]

/-- Witness for C6 amended: the two identical slides of the duplicate
environment produce identical media entries. -/
theorem media_resolution_per_slide_witness :
    (appMediaLoop dupEnv dupHttp [dupSlide, dupSlide])[0]?
      = (appMediaLoop dupEnv dupHttp [dupSlide, dupSlide])[1]? :=
  (media_resolution_is_per_slide dupEnv dupHttp [dupSlide, dupSlide]
    0 1).2 rfl

/-- The scene list of create_reel's Phase-2 loop, entry by entry. -/
theorem createReelScenes_getElem (fs : String → Bool)
    (probe : String → Option ℚ) (oracles : ℕ → SceneOracle)
    (np overlays : List String)
    (md : List (Option String × Option MRes)) (i : ℕ) :
    (createReelScenes fs probe oracles np overlays md)[i]?
      = (md[i]?).map (fun m =>
          mediaToSceneClip (oracles i) m.1 m.2 overlays[i]?
            (getAudioDuration fs probe (np.getD i "")
              + SLIDE_PADDING)) := by
  unfold createReelScenes
  rw [List.getElem?_map, List.getElem?_enum]
  cases md[i]? <;> rfl

/-- C10: the scene loop builds exactly one scene per media entry; for an
index at or beyond the end of narration_paths the guarded access yields
"" and the slide duration is the 3.0 s default plus padding, and for an
index at or beyond the end of overlay_images the scene is built with no
overlay; compose_reel's own narration access is guarded the same way.
No list access in either loop can be out of bounds. -/
theorem entry_points_tolerate_short_lists (fs : String → Bool)
    (probe : String → Option ℚ) (oracles : ℕ → SceneOracle)
    (np overlays : List String)
    (md : List (Option String × Option MRes)) (i : ℕ) :
    (createReelScenes fs probe oracles np overlays md).length
        = md.length
    ∧ (np.length ≤ i →
        ∀ sc : Scene,
          (createReelScenes fs probe oracles np overlays md)[i]?
              = some sc →
            sc.duration = 3 + SLIDE_PADDING)
    ∧ (overlays.length ≤ i →
        ∀ sc : Scene,
          (createReelScenes fs probe oracles np overlays md)[i]?
              = some sc →
            sc.overlayApplied = false)
    ∧ (np.length ≤ i →
        (renderOneScene fs probe (composeNarrPath np i)).duration
          = 3 + SLIDE_PADDING) := by
  refine ⟨?_, ?_, ?_, ?_⟩
  · unfold createReelScenes
    rw [List.length_map, List.enum_length]
  · intro hlen sc hsc
    rw [createReelScenes_getElem] at hsc
    rcases Option.map_eq_some'.mp hsc with ⟨m, -, hm⟩
    rw [← hm]
    have hnp : np.getD i "" = "" := List.getD_eq_default _ _ hlen
    have hdur : getAudioDuration fs probe (np.getD i "") = 3 := by
      rw [hnp]
      simp [getAudioDuration]
    have h := mediaToSceneClip_duration (oracles i) m.1 m.2 overlays[i]?
      (getAudioDuration fs probe (np.getD i "") + SLIDE_PADDING)
    rw [h, hdur]
  · intro hlen sc hsc
    rw [createReelScenes_getElem] at hsc
    rcases Option.map_eq_some'.mp hsc with ⟨m, -, hm⟩
    rw [← hm]
    have hov : overlays[i]? = none := List.getElem?_eq_none hlen
    have h := mediaToSceneClip_overlayApplied (oracles i) m.1 m.2
      overlays[i]?
      (getAudioDuration fs probe (np.getD i "") + SLIDE_PADDING)
    rw [h, hov]
    rfl
  · intro hlen
    unfold renderOneScene composeNarrPath
    rw [List.getD_eq_default _ _ hlen]
    simp [getAudioDuration]

/-- Witness for C10: one media entry, empty narration and overlay lists —
the single scene has the default duration 3.5 s and no overlay, and
compose_reel's guarded access also yields the default duration. -/
theorem entry_points_tolerate_short_lists_witness :
    (createReelScenes (fun _ => true) (fun _ => some 2)
        (fun _ => ⟨true, true, true⟩) [] [] [(none, none)]).length = 1
    ∧ (∀ sc : Scene,
        (createReelScenes (fun _ => true) (fun _ => some 2)
          (fun _ => ⟨true, true, true⟩) [] [] [(none, none)])[0]?
            = some sc →
          sc.duration = 3 + SLIDE_PADDING)
    ∧ (renderOneScene (fun _ => true) (fun _ => some 2)
        (composeNarrPath [] 0)).duration = 3 + SLIDE_PADDING := by
  have h := entry_points_tolerate_short_lists (fun _ => true)
    (fun _ => some 2) (fun _ => ⟨true, true, true⟩) [] [] [(none, none)] 0
  exact ⟨h.1, h.2.1 (Nat.le_refl 0 |>.trans (Nat.zero_le 0)), h.2.2.2
    (Nat.zero_le 0)⟩

end ReelsPipeline
